import Mathlib

/-!
Shallow embedding of CodeValidator (src/CodeValidator/CodeValidator.cpp).

The core of the program (spec §1–§5) is embedded below:

* `escapeFilePath` — the path-quoting helper (source lines 60–69);
* `executeCommand` — the `_popen`-based command runner (source lines 44–58),
  parametrised by a `launch` oracle: `launch cmd = none` models `_popen`
  returning a null pipe (subprocess failed to start), `launch cmd = some out`
  models the merged stdout/stderr text read from the pipe;
* the four validator classes (`JavaValidator`, `PythonValidator`,
  `PHPValidator`, `JavaScriptValidator`, source lines 73–171); each
  `validate` returns the source's result string together with a `Status`
  classifying the branch it came from (the spec's §7 taxonomy attached to
  the code's branches — the C++ returns only the string), plus the list of
  command lines passed to `executeCommand`, so that "no subprocess is
  started" is expressible;
* `getValidator` — the selector (source lines 173–191); the spec names the
  source's combo-box literal "Auto-detect" by the abstract tag "auto";
* `computeResult` — the body of the background thread of `validateCode`
  (source lines 232–255), parametrised by an `Env` holding the
  `std::filesystem::exists` oracle and the launch oracle;
* a small transition system (`SysState`, `submit`, `step`, `run`) for the
  single-flight discipline of `validateCode` (source lines 194–277): the
  mutex-guarded test-and-set on entry and clear on exit are modelled as
  atomic transitions, the `catch` clauses of the thread body (lines
  257–262) as an `exc` oracle on the `finish` event.

Path decomposition (`std::filesystem::path::extension` etc.) is embedded
for generic (non-root) paths: the filename is the part after the last
separator ('/' or '\'), the extension the part from the last dot of the
filename unless the filename is "." or ".." or the dot is its first
character.
-/

/-- Substring test over character lists: does the list start with `pat`?
Models the prefix comparison inside `std::string::find`. -/
def startsWithChars : List Char → List Char → Bool
  | [], _ => true
  | _ :: _, [] => false
  | p :: ps, c :: cs => p == c && startsWithChars ps cs

/-- Substring containment over character lists. -/
def hasSubstrChars (pat : List Char) : List Char → Bool
  | [] => pat.isEmpty
  | c :: cs => startsWithChars pat (c :: cs) || hasSubstrChars pat cs

/-- The test `strContains s pat` models `s.find(pat) != std::string::npos`. -/
def strContains (s pat : String) : Bool :=
  hasSubstrChars pat.toList s.toList

/-- Is `c` a path separator? On Windows `std::filesystem` accepts both. -/
def isSep (c : Char) : Bool := c == '/' || c == '\\'

/-- The filename component of a path: the characters after the last
separator (the whole path when there is none).  Models
`std::filesystem::path::filename` for generic paths. -/
def filenameOf (p : String) : String :=
  String.mk (p.toList.foldl (fun acc c => if isSep c then [] else acc ++ [c]) [])

/-- The extension of the filename component, dot included: empty when the
filename is "." or "..", has no dot, or its only leading character is the
dot.  Models `std::filesystem::path::extension`. -/
def extensionOf (p : String) : String :=
  let f := (filenameOf p).toList
  if f = ['.'] ∨ f = ['.', '.'] then ""
  else
    match f.reverse.findIdx? (fun c => c == '.') with
    | none => ""
    | some j =>
        let i := f.length - 1 - j
        if i = 0 then "" else String.mk (f.drop i)

/-- The filename without its extension.  Models
`std::filesystem::path::stem`. -/
def stemOf (p : String) : String :=
  let f := (filenameOf p).toList
  let e := (extensionOf p).toList
  String.mk (f.take (f.length - e.length))

/-- The path up to (excluding) the last separator, empty when there is
none.  Models `std::filesystem::path::parent_path` for generic paths. -/
def parentPathOf (p : String) : String :=
  let l := p.toList
  match l.reverse.findIdx? isSep with
  | none => ""
  | some j => String.mk (l.take (l.length - 1 - j))

/-- One character of `escapeFilePath`'s find/replace loop: each original
backslash is replaced by two and the scan resumes after the inserted pair
(`pos += 2`), so inserted backslashes are never reprocessed. -/
def doubleBackslashes : List Char → List Char
  | [] => []
  | c :: cs =>
      if c = '\\' then '\\' :: '\\' :: doubleBackslashes cs
      else c :: doubleBackslashes cs

/-- Embeds `LanguageValidator::escapeFilePath` (source lines 60–69): double
every backslash, then wrap the whole string in double quotes. -/
def escapeFilePath (filePath : String) : String :=
  "\"" ++ String.mk (doubleBackslashes filePath.toList) ++ "\""

/-- Embeds `LanguageValidator::executeCommand` (source lines 44–58).  Here
`launch` is the `_popen` oracle: `none` means the pipe could not be opened,
in which case the source returns the literal error text; `some out` is the
merged output read until EOF. -/
def executeCommand (launch : String → Option String) (command : String) : String :=
  match launch command with
  | none => "Error executing command: " ++ command
  | some out => out

/-- The spec's §7 outcome taxonomy, attached below to the source's result
branches (the C++ produces only message strings). -/
inductive Status where
  | Success
  | CompileError
  | RuntimeOutput
  | SelectionError
  | SystemError
deriving DecidableEq, Repr

/-- A delivered result: the source's result string plus its §7 status. -/
structure Outcome where
  status : Status
  message : String
deriving DecidableEq, Repr

namespace JavaValidator

/-- Embeds `JavaValidator::isCompatible` (source lines 75–78). -/
def isCompatible (filePath : String) : Bool :=
  extensionOf filePath == ".java"

/-- Embeds `JavaValidator::validate` (source lines 80–98).  Returns the
result string (with its branch's status) and the command lines executed. -/
def validate (launch : String → Option String) (filePath : String) :
    Outcome × List String :=
  let className := stemOf filePath
  let directory := parentPathOf filePath
  let compileCommand := "javac " ++ escapeFilePath filePath ++ " 2>&1"
  let compileResult := executeCommand launch compileCommand
  if ¬ compileResult.isEmpty then
    (⟨.CompileError, "Compilation errors:\n" ++ compileResult⟩, [compileCommand])
  else
    let runCommand :=
      "cd " ++ escapeFilePath directory ++ " && java " ++ className ++ " 2>&1"
    let runResult := executeCommand launch runCommand
    (⟨.RuntimeOutput, "Compilation successful.\nExecution output:\n" ++ runResult⟩,
      [compileCommand, runCommand])

end JavaValidator

namespace PythonValidator

/-- Embeds `PythonValidator::isCompatible` (source lines 104–107). -/
def isCompatible (filePath : String) : Bool :=
  extensionOf filePath == ".py"

/-- Embeds `PythonValidator::validate` (source lines 109–122). -/
def validate (launch : String → Option String) (filePath : String) :
    Outcome × List String :=
  let syntaxCommand := "python -m py_compile " ++ escapeFilePath filePath ++ " 2>&1"
  let syntaxResult := executeCommand launch syntaxCommand
  if ¬ syntaxResult.isEmpty ∧ strContains syntaxResult "SyntaxError" then
    (⟨.CompileError, "Syntax errors:\n" ++ syntaxResult⟩, [syntaxCommand])
  else
    let runCommand := "python " ++ escapeFilePath filePath ++ " 2>&1"
    let runResult := executeCommand launch runCommand
    (⟨.RuntimeOutput, "Compilation successful.\nExecution output:\n" ++ runResult⟩,
      [syntaxCommand, runCommand])

end PythonValidator

namespace PHPValidator

/-- Embeds `PHPValidator::isCompatible` (source lines 128–131). -/
def isCompatible (filePath : String) : Bool :=
  extensionOf filePath == ".php"

/-- Embeds `PHPValidator::validate` (source lines 133–146). -/
def validate (launch : String → Option String) (filePath : String) :
    Outcome × List String :=
  let syntaxCommand := "php -l " ++ escapeFilePath filePath ++ " 2>&1"
  let syntaxResult := executeCommand launch syntaxCommand
  if ¬ strContains syntaxResult "No syntax errors" then
    (⟨.CompileError, "Syntax errors:\n" ++ syntaxResult⟩, [syntaxCommand])
  else
    let runCommand := "php " ++ escapeFilePath filePath ++ " 2>&1"
    let runResult := executeCommand launch runCommand
    (⟨.RuntimeOutput, "Compilation successful.\nExecution output:\n" ++ runResult⟩,
      [syntaxCommand, runCommand])

end PHPValidator

namespace JavaScriptValidator

/-- Embeds `JavaScriptValidator::isCompatible` (source lines 152–155). -/
def isCompatible (filePath : String) : Bool :=
  extensionOf filePath == ".js"

/-- Embeds `JavaScriptValidator::validate` (source lines 157–170). -/
def validate (launch : String → Option String) (filePath : String) :
    Outcome × List String :=
  let checkCommand := "node --check " ++ escapeFilePath filePath ++ " 2>&1"
  let checkResult := executeCommand launch checkCommand
  if ¬ checkResult.isEmpty then
    (⟨.CompileError, "Syntax errors:\n" ++ checkResult⟩, [checkCommand])
  else
    let runCommand := "node " ++ escapeFilePath filePath ++ " 2>&1"
    let runResult := executeCommand launch runCommand
    (⟨.RuntimeOutput, "Compilation successful.\nExecution output:\n" ++ runResult⟩,
      [checkCommand, runCommand])

end JavaScriptValidator

/-- The four language variants behind `getValidator`'s
`std::make_unique<...Validator>()` calls. -/
inductive Validator where
  | java
  | python
  | php
  | javascript
deriving DecidableEq, Repr

/-- Virtual dispatch of `isCompatible` over the variant. -/
def Validator.isCompatible : Validator → String → Bool
  | .java, p => JavaValidator.isCompatible p
  | .python, p => PythonValidator.isCompatible p
  | .php, p => PHPValidator.isCompatible p
  | .javascript, p => JavaScriptValidator.isCompatible p

/-- Virtual dispatch of `validate` over the variant. -/
def Validator.validate :
    Validator → (String → Option String) → String → Outcome × List String
  | .java, launch, p => JavaValidator.validate launch p
  | .python, launch, p => PythonValidator.validate launch p
  | .php, launch, p => PHPValidator.validate launch p
  | .javascript, launch, p => JavaScriptValidator.validate launch p

/-- Embeds `getValidator` (source lines 173–191).  The source's combo-box
literal "Auto-detect" is the selection the spec names by the tag "auto". -/
def getValidator (language filePath : String) : Option Validator :=
  if language = "Auto-detect" then
    let extension := extensionOf filePath
    if extension = ".java" then some .java
    else if extension = ".py" then some .python
    else if extension = ".php" then some .php
    else if extension = ".js" then some .javascript
    else none
  else if language = "Java" then some .java
  else if language = "Python" then some .python
  else if language = "PHP" then some .php
  else if language = "JavaScript" then some .javascript
  else none

/-- The environment oracles the job consumes (spec §6):
`std::filesystem::exists` and the `_popen` launch primitive. -/
structure Env where
  fileExists : String → Bool
  launch : String → Option String

/-- The body of `validateCode`'s background thread without the catch
clauses (source lines 232–255): result string with its §7 status, plus the
command lines passed to `executeCommand` (empty ⇔ no subprocess started). -/
def computeResult (env : Env) (filePath language : String) : Outcome × List String :=
  if filePath.isEmpty then
    (⟨.SystemError, "Please select a file to validate."⟩, [])
  else if ¬ env.fileExists filePath then
    (⟨.SystemError, "File does not exist: " ++ filePath⟩, [])
  else
    match getValidator language filePath with
    | none => (⟨.SelectionError, "Unsupported file type or language selection."⟩, [])
    | some validator =>
        if ¬ validator.isCompatible filePath then
          (⟨.SelectionError, "Selected language doesn't match the file extension."⟩, [])
        else
          validator.validate env.launch filePath

/-- A validation request (spec §3): the file path and the language tag. -/
structure Request where
  filePath : String
  language : String
deriving DecidableEq, Repr

/-- The catch clauses of the thread body (source lines 257–262), as an
oracle: `none` — no unexpected failure, the try block completes;
`some (some e)` — a `std::exception` with description `e` was thrown inside
the try block; `some none` — a non-`std::exception` value was thrown. -/
def runJobResult (env : Env) (req : Request) (exc : Option (Option String)) : Outcome :=
  match exc with
  | some (some e) => ⟨.SystemError, "Error occurred during validation: " ++ e⟩
  | some none => ⟨.SystemError, "Unknown error occurred during validation."⟩
  | none => (computeResult env req.filePath req.language).1

/-- The shared state of `validateCode`: the mutex-guarded
`g_validationInProgress` flag, the request owned by the running background
thread (if any), and the outcomes delivered to the subscriber so far
(`SendMessage(hwnd, WM_APP, ...)` posts). -/
structure SysState where
  inProgress : Bool
  active : Option Request
  delivered : List Outcome
deriving Repr

/-- The entry of `validateCode` (source lines 194–228): under the lock,
test `g_validationInProgress`; if set, reject without touching anything;
otherwise set it and hand the request to a background thread.  Returns
`(accepted, new state)`. -/
def submit (s : SysState) (req : Request) : Bool × SysState :=
  if s.inProgress then (false, s)
  else (true, { s with inProgress := true, active := some req })

/-- An atomic event of the system: a foreground `submit` call, or the
completion of the background thread (deliver the outcome, then clear the
flag under the lock — source lines 264–275), with its exception oracle. -/
inductive Event where
  | submit (req : Request)
  | finish (exc : Option (Option String))

/-- One atomic transition. -/
def step (env : Env) (s : SysState) : Event → SysState
  | .submit req => (submit s req).2
  | .finish exc =>
      match s.active with
      | none => s
      | some req =>
          { inProgress := false, active := none,
            delivered := s.delivered ++ [runJobResult env req exc] }

/-- Run a sequence of events. -/
def run (env : Env) (s : SysState) (evs : List Event) : SysState :=
  evs.foldl (step env) s

lemma doubleBackslashes_eq_flatMap (l : List Char) :
    doubleBackslashes l = l.flatMap (fun c => if c = '\\' then ['\\', '\\'] else [c]) := by
  induction l with
  | nil => rfl
  | cons c cs ih =>
      by_cases h : c = '\\' <;> simp [doubleBackslashes, h, ih]

lemma doubleBackslashes_id (l : List Char) (h : ∀ c ∈ l, c ≠ '\\') :
    doubleBackslashes l = l := by
  induction l with
  | nil => rfl
  | cons c cs ih =>
      have hc : c ≠ '\\' := h c (by simp)
      simp [doubleBackslashes, hc, ih (fun x hx => h x (by simp [hx]))]

/-- C8: for every input path, `escapeFilePath` returns the path with every
backslash replaced by two backslashes and the whole string wrapped in one
leading and one trailing double-quote character (a pure total function —
it is a Lean `def` with no `Option`/`Except` in its type). -/
theorem escapeFilePath_doubles_and_quotes (p : String) :
    escapeFilePath p
      = "\"" ++ String.mk (p.toList.flatMap fun c => if c = '\\' then ['\\', '\\'] else [c])
          ++ "\"" := by
  unfold escapeFilePath
  rw [doubleBackslashes_eq_flatMap]

/-- C10: for every path containing no backslash, `escapeFilePath` returns
exactly the input surrounded by one leading and one trailing double quote,
interior unchanged — double quotes and other shell metacharacters inside
the path pass through unescaped. -/
theorem escapeFilePath_no_backslash (p : String) (h : ∀ c ∈ p.toList, c ≠ '\\') :
    escapeFilePath p = "\"" ++ p ++ "\"" := by
  unfold escapeFilePath
  rw [doubleBackslashes_id p.toList h]
  cases p
  rfl

/-- Witness for C10 at a path containing a double quote and no backslash. -/
theorem escapeFilePath_no_backslash_witness :
    (∀ c ∈ ("a\"b.py" : String).toList, c ≠ '\\') ∧
      escapeFilePath "a\"b.py" = "\"" ++ "a\"b.py" ++ "\"" :=
  ⟨by decide, escapeFilePath_no_backslash "a\"b.py" (by decide)⟩

/-- C4: with the auto-detect tag, selection maps the path extension through
the fixed table — every path with extension ".py" yields the Python
variant, every path whose extension is outside {.java, .py, .php, .js}
yields none; in particular for "x.py" and "x.xyz". -/
theorem getValidator_auto_spec :
    (∀ p, extensionOf p = ".py" → getValidator "Auto-detect" p = some Validator.python) ∧
    (∀ p, ¬ extensionOf p = ".java" → ¬ extensionOf p = ".py" → ¬ extensionOf p = ".php" →
      ¬ extensionOf p = ".js" → getValidator "Auto-detect" p = none) ∧
    getValidator "Auto-detect" "x.py" = some Validator.python ∧
    getValidator "Auto-detect" "x.xyz" = none := by
  refine ⟨fun p h => ?_, fun p h1 h2 h3 h4 => ?_, by decide, by decide⟩
  · simp [getValidator, h]
  · simp [getValidator, h1, h2, h3, h4]

/-- Witness for C4 at concrete paths. -/
theorem getValidator_auto_spec_witness :
    getValidator "Auto-detect" "hello.py" = some Validator.python ∧
      getValidator "Auto-detect" "notes.txt" = none :=
  ⟨getValidator_auto_spec.1 "hello.py" (by decide),
   getValidator_auto_spec.2.1 "notes.txt" (by decide) (by decide) (by decide) (by decide)⟩

/-- C5: every explicit (non-auto) tag maps to its variant regardless of the
path's extension (in particular `getValidator "Java" "x.py"` is the Java
variant), and the job layer rejects an incompatible selection with the
SelectionError outcome "Selected language doesn't match the file
extension." and starts no subprocess. -/
theorem getValidator_explicit_tag_spec :
    (∀ p, getValidator "Java" p = some Validator.java) ∧
    (∀ p, getValidator "Python" p = some Validator.python) ∧
    (∀ p, getValidator "PHP" p = some Validator.php) ∧
    (∀ p, getValidator "JavaScript" p = some Validator.javascript) ∧
    getValidator "Java" "x.py" = some Validator.java ∧
    (∀ (env : Env) p lang v, p.isEmpty = false → env.fileExists p = true →
      getValidator lang p = some v → v.isCompatible p = false →
      computeResult env p lang
        = (⟨Status.SelectionError, "Selected language doesn't match the file extension."⟩,
            [])) := by
  refine ⟨fun p => by simp [getValidator], fun p => by simp [getValidator],
    fun p => by simp [getValidator], fun p => by simp [getValidator], by decide, ?_⟩
  intro env p lang v hp hfe hv hc
  simp [computeResult, hp, hfe, hv, hc]

/-- Witness for C5: tag "Java" on "x.py" is rejected by the compatibility
check with the SelectionError outcome. -/
theorem getValidator_explicit_tag_spec_witness :
    computeResult ⟨fun _ => true, fun _ => none⟩ "x.py" "Java"
      = (⟨Status.SelectionError, "Selected language doesn't match the file extension."⟩,
          []) :=
  getValidator_explicit_tag_spec.2.2.2.2.2 ⟨fun _ => true, fun _ => none⟩ "x.py" "Java"
    Validator.java (by decide) rfl (by decide) (by decide)

/-- C6: the Python variant terminates in the check phase with a
CompileError message prefixed "Syntax errors:" exactly when the check
command's output is non-empty and contains the literal marker
"SyntaxError"; any output without the marker (even non-empty) falls
through to the run phase, whose result is prefixed
"Compilation successful.". -/
theorem python_check_phase_spec (launch : String → Option String) (p : String) :
    ((PythonValidator.validate launch p).1.status = Status.CompileError ↔
      ((executeCommand launch
          ("python -m py_compile " ++ escapeFilePath p ++ " 2>&1")).isEmpty = false ∧
        strContains
          (executeCommand launch ("python -m py_compile " ++ escapeFilePath p ++ " 2>&1"))
          "SyntaxError" = true)) ∧
    ((executeCommand launch
        ("python -m py_compile " ++ escapeFilePath p ++ " 2>&1")).isEmpty = false →
      strContains
        (executeCommand launch ("python -m py_compile " ++ escapeFilePath p ++ " 2>&1"))
        "SyntaxError" = true →
      PythonValidator.validate launch p
        = (⟨Status.CompileError, "Syntax errors:\n" ++
              executeCommand launch
                ("python -m py_compile " ++ escapeFilePath p ++ " 2>&1")⟩,
            ["python -m py_compile " ++ escapeFilePath p ++ " 2>&1"])) ∧
    (strContains
        (executeCommand launch ("python -m py_compile " ++ escapeFilePath p ++ " 2>&1"))
        "SyntaxError" = false →
      PythonValidator.validate launch p
        = (⟨Status.RuntimeOutput, "Compilation successful.\nExecution output:\n" ++
              executeCommand launch ("python " ++ escapeFilePath p ++ " 2>&1")⟩,
            ["python -m py_compile " ++ escapeFilePath p ++ " 2>&1",
             "python " ++ escapeFilePath p ++ " 2>&1"])) := by
  refine ⟨?_, ?_, ?_⟩
  · by_cases h1 :
        (executeCommand launch
          ("python -m py_compile " ++ escapeFilePath p ++ " 2>&1")).isEmpty = true <;>
      by_cases h2 :
        strContains
          (executeCommand launch ("python -m py_compile " ++ escapeFilePath p ++ " 2>&1"))
          "SyntaxError" = true <;>
      simp [PythonValidator.validate, h1, h2]
  · intro h1 h2
    simp [PythonValidator.validate, h1, h2]
  · intro h2
    simp [PythonValidator.validate, h2]

/-- Witness for C6: a check output containing the marker is terminal, an
empty check output falls through to the run phase. -/
theorem python_check_phase_spec_witness :
    (PythonValidator.validate (fun _ => some "SyntaxError: invalid") "bad.py").1.status
        = Status.CompileError ∧
      PythonValidator.validate (fun _ => some "") "hello.py"
        = (⟨Status.RuntimeOutput, "Compilation successful.\nExecution output:\n" ++
              executeCommand (fun _ => some "")
                ("python " ++ escapeFilePath "hello.py" ++ " 2>&1")⟩,
            ["python -m py_compile " ++ escapeFilePath "hello.py" ++ " 2>&1",
             "python " ++ escapeFilePath "hello.py" ++ " 2>&1"]) :=
  ⟨(python_check_phase_spec (fun _ => some "SyntaxError: invalid") "bad.py").1.mpr
      ⟨by decide, by decide⟩,
    (python_check_phase_spec (fun _ => some "") "hello.py").2.2 (by decide)⟩

/-- C7: check-phase termination predicates — Java and JavaScript terminate
with a compile/syntax-error message exactly when the check command's
output is non-empty; PHP terminates with a syntax-error message exactly
when the check output does not contain the literal marker
"No syntax errors"; otherwise each variant proceeds to the run phase and
returns the combined output prefixed "Compilation successful.". -/
theorem check_phase_termination_spec (launch : String → Option String) (p : String) :
    ((JavaValidator.validate launch p).1.status = Status.CompileError ↔
      (executeCommand launch ("javac " ++ escapeFilePath p ++ " 2>&1")).isEmpty = false) ∧
    ((executeCommand launch ("javac " ++ escapeFilePath p ++ " 2>&1")).isEmpty = false →
      JavaValidator.validate launch p
        = (⟨Status.CompileError, "Compilation errors:\n" ++
              executeCommand launch ("javac " ++ escapeFilePath p ++ " 2>&1")⟩,
            ["javac " ++ escapeFilePath p ++ " 2>&1"])) ∧
    ((executeCommand launch ("javac " ++ escapeFilePath p ++ " 2>&1")).isEmpty = true →
      JavaValidator.validate launch p
        = (⟨Status.RuntimeOutput, "Compilation successful.\nExecution output:\n" ++
              executeCommand launch
                ("cd " ++ escapeFilePath (parentPathOf p) ++ " && java "
                  ++ stemOf p ++ " 2>&1")⟩,
            ["javac " ++ escapeFilePath p ++ " 2>&1",
             "cd " ++ escapeFilePath (parentPathOf p) ++ " && java "
               ++ stemOf p ++ " 2>&1"])) ∧
    ((PHPValidator.validate launch p).1.status = Status.CompileError ↔
      strContains (executeCommand launch ("php -l " ++ escapeFilePath p ++ " 2>&1"))
        "No syntax errors" = false) ∧
    (strContains (executeCommand launch ("php -l " ++ escapeFilePath p ++ " 2>&1"))
        "No syntax errors" = false →
      PHPValidator.validate launch p
        = (⟨Status.CompileError, "Syntax errors:\n" ++
              executeCommand launch ("php -l " ++ escapeFilePath p ++ " 2>&1")⟩,
            ["php -l " ++ escapeFilePath p ++ " 2>&1"])) ∧
    (strContains (executeCommand launch ("php -l " ++ escapeFilePath p ++ " 2>&1"))
        "No syntax errors" = true →
      PHPValidator.validate launch p
        = (⟨Status.RuntimeOutput, "Compilation successful.\nExecution output:\n" ++
              executeCommand launch ("php " ++ escapeFilePath p ++ " 2>&1")⟩,
            ["php -l " ++ escapeFilePath p ++ " 2>&1",
             "php " ++ escapeFilePath p ++ " 2>&1"])) ∧
    ((JavaScriptValidator.validate launch p).1.status = Status.CompileError ↔
      (executeCommand launch
        ("node --check " ++ escapeFilePath p ++ " 2>&1")).isEmpty = false) ∧
    ((executeCommand launch ("node --check " ++ escapeFilePath p ++ " 2>&1")).isEmpty
        = false →
      JavaScriptValidator.validate launch p
        = (⟨Status.CompileError, "Syntax errors:\n" ++
              executeCommand launch ("node --check " ++ escapeFilePath p ++ " 2>&1")⟩,
            ["node --check " ++ escapeFilePath p ++ " 2>&1"])) ∧
    ((executeCommand launch ("node --check " ++ escapeFilePath p ++ " 2>&1")).isEmpty
        = true →
      JavaScriptValidator.validate launch p
        = (⟨Status.RuntimeOutput, "Compilation successful.\nExecution output:\n" ++
              executeCommand launch ("node " ++ escapeFilePath p ++ " 2>&1")⟩,
            ["node --check " ++ escapeFilePath p ++ " 2>&1",
             "node " ++ escapeFilePath p ++ " 2>&1"])) := by
  refine ⟨?_, ?_, ?_, ?_, ?_, ?_, ?_, ?_, ?_⟩
  · by_cases h :
        (executeCommand launch ("javac " ++ escapeFilePath p ++ " 2>&1")).isEmpty = true <;>
      simp [JavaValidator.validate, h]
  · intro h
    simp [JavaValidator.validate, h]
  · intro h
    simp [JavaValidator.validate, h]
  · by_cases h :
        strContains (executeCommand launch ("php -l " ++ escapeFilePath p ++ " 2>&1"))
          "No syntax errors" = true <;>
      simp [PHPValidator.validate, h]
  · intro h
    simp [PHPValidator.validate, h]
  · intro h
    simp [PHPValidator.validate, h]
  · by_cases h :
        (executeCommand launch
          ("node --check " ++ escapeFilePath p ++ " 2>&1")).isEmpty = true <;>
      simp [JavaScriptValidator.validate, h]
  · intro h
    simp [JavaScriptValidator.validate, h]
  · intro h
    simp [JavaScriptValidator.validate, h]

/-- Witness for C7: a Java compile error, a PHP lint failure, a clean
JavaScript check. -/
theorem check_phase_termination_spec_witness :
    (JavaValidator.validate (fun _ => some "A.java:1: error") "A.java").1.status
        = Status.CompileError ∧
      (PHPValidator.validate (fun _ => some "PHP Parse error") "a.php").1.status
        = Status.CompileError ∧
      ¬ (JavaScriptValidator.validate (fun _ => some "") "a.js").1.status
          = Status.CompileError :=
  ⟨(check_phase_termination_spec (fun _ => some "A.java:1: error") "A.java").1.mpr
      (by decide),
    (check_phase_termination_spec (fun _ => some "PHP Parse error") "a.php").2.2.2.1.mpr
      (by decide),
    fun h =>
      absurd ((check_phase_termination_spec (fun _ => some "") "a.js").2.2.2.2.2.2.1.mp h)
        (by decide)⟩

/-- C3: an empty path yields the SystemError outcome "Please select a file
to validate.", a non-empty path with no file at it yields the SystemError
outcome "File does not exist: <path>"; in both cases the command trace is
empty — no subprocess is started. -/
theorem request_shape_errors_spec :
    (∀ (env : Env) lang,
      computeResult env "" lang
        = (⟨Status.SystemError, "Please select a file to validate."⟩, [])) ∧
    (∀ (env : Env) p lang, p.isEmpty = false → env.fileExists p = false →
      computeResult env p lang
        = (⟨Status.SystemError, "File does not exist: " ++ p⟩, [])) := by
  refine ⟨fun env lang => ?_, ?_⟩
  · have h : ("" : String).isEmpty = true := rfl
    simp [computeResult, h]
  · intro env p lang hp hfe
    simp [computeResult, hp, hfe]

/-- Witness for C3: the spec's scenario — nonexistent "missing.py". -/
theorem request_shape_errors_spec_witness :
    computeResult ⟨fun _ => false, fun _ => none⟩ "missing.py" "Auto-detect"
      = (⟨Status.SystemError, "File does not exist: missing.py"⟩, []) :=
  request_shape_errors_spec.2 ⟨fun _ => false, fun _ => none⟩ "missing.py"
    "Auto-detect" (by decide) rfl

/-- C1: while the in-progress flag is set, a submission is rejected
(`accepted = false`), the shared state is left untouched, and therefore
every future trace — in particular the in-progress job's eventual outcome —
is exactly what it would have been without the rejected submission.  The
test-and-set on entry and the clear on exit are the mutex-guarded blocks of
the source (lines 195–202 and 272–275), modelled as the atomic `submit` and
`finish` transitions. -/
theorem single_flight_reject (s : SysState) (req : Request) (h : s.inProgress = true) :
    (submit s req).1 = false ∧ (submit s req).2 = s ∧
      ∀ (env : Env) evs, run env (step env s (.submit req)) evs = run env s evs := by
  refine ⟨by simp [submit, h], by simp [submit, h], ?_⟩
  intro env evs
  have hs : step env s (.submit req) = s := by simp [step, submit, h]
  rw [hs]

/-- Witness for C1: a rejected submission against a busy state. -/
theorem single_flight_reject_witness :
    (submit ⟨true, some ⟨"a.py", "Python"⟩, []⟩ ⟨"b.py", "Python"⟩).1 = false ∧
      (submit ⟨true, some ⟨"a.py", "Python"⟩, []⟩ ⟨"b.py", "Python"⟩).2
        = ⟨true, some ⟨"a.py", "Python"⟩, []⟩ :=
  ⟨(single_flight_reject ⟨true, some ⟨"a.py", "Python"⟩, []⟩ ⟨"b.py", "Python"⟩ rfl).1,
    (single_flight_reject ⟨true, some ⟨"a.py", "Python"⟩, []⟩ ⟨"b.py", "Python"⟩ rfl).2.1⟩

/-- C2: an accepted job delivers exactly one outcome (the delivered list
grows by exactly one entry) and the in-progress flag is cleared after the
delivery, for every value of the exception oracle — including the two
catch clauses — so an unexpected failure in the validation step still
releases the flag and still produces exactly one outcome; no failure
escapes the `finish` transition, which is total. -/
theorem accepted_job_delivers_once (env : Env) (s : SysState) (req : Request)
    (h : s.inProgress = false) :
    (submit s req).1 = true ∧
      ∀ exc,
        (step env (submit s req).2 (.finish exc)).delivered
            = s.delivered ++ [runJobResult env req exc] ∧
          (step env (submit s req).2 (.finish exc)).inProgress = false ∧
          (step env (submit s req).2 (.finish exc)).active = none := by
  refine ⟨by simp [submit, h], ?_⟩
  intro exc
  simp [submit, h, step]

/-- Witness for C2: an accepted job whose try block throws a
non-`std::exception` value still delivers one outcome and clears the
flag. -/
theorem accepted_job_delivers_once_witness :
    (submit ⟨false, none, []⟩ ⟨"a.py", "Python"⟩).1 = true ∧
      (step ⟨fun _ => true, fun _ => none⟩
          (submit ⟨false, none, []⟩ ⟨"a.py", "Python"⟩).2 (.finish (some none))).delivered
        = (⟨false, none, []⟩ : SysState).delivered
            ++ [runJobResult ⟨fun _ => true, fun _ => none⟩ ⟨"a.py", "Python"⟩
                  (some none)] ∧
      (step ⟨fun _ => true, fun _ => none⟩
          (submit ⟨false, none, []⟩ ⟨"a.py", "Python"⟩).2 (.finish (some none))).inProgress
        = false :=
  ⟨(accepted_job_delivers_once ⟨fun _ => true, fun _ => none⟩ ⟨false, none, []⟩
      ⟨"a.py", "Python"⟩ rfl).1,
    ((accepted_job_delivers_once ⟨fun _ => true, fun _ => none⟩ ⟨false, none, []⟩
      ⟨"a.py", "Python"⟩ rfl).2 (some none)).1,
    ((accepted_job_delivers_once ⟨fun _ => true, fun _ => none⟩ ⟨false, none, []⟩
      ⟨"a.py", "Python"⟩ rfl).2 (some none)).2.1⟩

/-- Counterexample to C9 as stated: with `_popen` failing (`launch` always
`none`), a Java job on an existing "A.java" delivers the launch-failure
text through the CompileError branch — the outcome's status is
CompileError, not SystemError, because `executeCommand` reports the
failure as a string and nothing reaches the job boundary's catch
clauses. -/
theorem launch_failure_not_system_error :
    (computeResult ⟨fun _ => true, fun _ => none⟩ "A.java" "Java").1.status
        = Status.CompileError ∧
      ¬ (computeResult ⟨fun _ => true, fun _ => none⟩ "A.java" "Java").1.status
          = Status.SystemError ∧
      (computeResult ⟨fun _ => true, fun _ => none⟩ "A.java" "Java").1.message
        = "Compilation errors:\nError executing command: javac \"A.java\" 2>&1" := by
  refine ⟨by decide, by decide, by decide⟩

/-- C9 amended: when a subprocess fails to launch, `executeCommand` returns
the descriptive string "Error executing command: <command>" instead of
raising, so the failure never propagates and never crashes; the text is
embedded in the outcome of whichever phase attempted the launch — the
check-phase branch (CompileError) for Java, the run-phase branch
(RuntimeOutput) for Python, whose check output lacks the "SyntaxError"
marker — rather than in a SystemError outcome. -/
theorem launch_failure_reported_as_text :
    (∀ (launch : String → Option String) cmd, launch cmd = none →
      executeCommand launch cmd = "Error executing command: " ++ cmd) ∧
    computeResult ⟨fun _ => true, fun _ => none⟩ "A.java" "Java"
      = (⟨Status.CompileError,
            "Compilation errors:\nError executing command: javac \"A.java\" 2>&1"⟩,
          ["javac \"A.java\" 2>&1"]) ∧
    computeResult ⟨fun _ => true, fun _ => none⟩ "a.py" "Python"
      = (⟨Status.RuntimeOutput,
            "Compilation successful.\nExecution output:\nError executing command: python \"a.py\" 2>&1"⟩,
          ["python -m py_compile \"a.py\" 2>&1", "python \"a.py\" 2>&1"]) := by
  refine ⟨?_, by decide, by decide⟩
  intro launch cmd hl
  simp [executeCommand, hl]

/-- Witness for the amended C9 at a concrete command. -/
theorem launch_failure_reported_as_text_witness :
    executeCommand (fun _ => none) "javac \"A.java\" 2>&1"
      = "Error executing command: javac \"A.java\" 2>&1" :=
  launch_failure_reported_as_text.1 (fun _ => none) "javac \"A.java\" 2>&1" rfl
